import Mathlib

/-!
Verification of `modernice/vue-ui`.

This file shallowly embeds the two composables the specification talks
about:

* `useAction` (src/src/composables/useAction/index.ts) — the `run`
  function is modelled as a pure function from the options, the outcome
  of the wrapped action and the observable state (the `pending` and
  `error` refs) to the returned/thrown result, the state after
  settlement, and the number of times the wrapped action was invoked.
  JavaScript `null` returns are a dedicated constructor, thrown values
  are dedicated constructors, and `Error` objects are modelled by their
  `message` string.

* `useSearch` (an unnamed source file of the repository) — the derived
  `result` computed value is modelled as a pure function of the options,
  the term-extraction function, the list and the current `input` string.
  JavaScript string truthiness (non-empty) and `String.prototype.includes`
  (substring containment) are modelled explicitly.
-/

namespace VueUI

/-- A JavaScript `Error` object, modelled by its `message` property. -/
structure Err where
  message : String
deriving DecidableEq, Repr

/-- A value of type `TError extends Error | string`: what a configured
`parseError` function may return and what the `error` ref may hold. -/
inductive ErrVal where
  | str : String → ErrVal
  | err : Err → ErrVal
deriving DecidableEq, Repr

/-- `UseActionOptions` after `defu(options, baseOptions)`: the effective
options seen by `run`.  `throw` is `Option Bool` because the source reads
it with the truthiness test `opts?.throw` (an unset field is falsy);
`disabled` is the current value of `toRef(opts.disabled)` at the time of
the call. -/
structure UseActionOptions where
  throw : Option Bool
  disabled : Bool
  parseError : Option (Err → ErrVal)

/-- The observable state of a `useAction` instance: the `pending` and
`error` refs (`error` is the spec's `lastError`; `none` models `null`). -/
structure ActionState where
  pending : Bool
  error : Option ErrVal
deriving Repr

/-- How the wrapped action settles when it is invoked:
it resolves to a value, it throws an `Error`, or it throws a value that
is not an `Error` instance (recorded by its string interpolation `${e}`). -/
inductive Outcome (V : Type) where
  | resolves : V → Outcome V
  | throwsError : Err → Outcome V
  | throwsNonError : String → Outcome V

/-- How a call to `run` settles: it resolves to the action's value,
resolves to `null`, rejects with an `Error` object, or rejects with a
`TypeError` (modelled by its message). -/
inductive RunResult (V : Type) where
  | value : V → RunResult V
  | nullRet : RunResult V
  | thrownError : Err → RunResult V
  | thrownTypeError : String → RunResult V
deriving DecidableEq, Repr

/-- The state right after the two writes that precede the `await` of the
wrapped action: `error.value = null` followed by `pending.value = true`.
This is the state observable while the action is in flight. -/
def preActionState (st : ActionState) : ActionState :=
  { st with error := none, pending := true }

/-- `run` from `useAction`, over one call.  Mirrors the source line by
line: the `disabled` early return, the reset of `error` and setting of
`pending`, the `try` returning the awaited result, and the `catch` block
with its non-`Error` `TypeError`, the no-`parseError` branch, and the
`parseError` branch with its `instanceof Error` re-wrap before `throw`.
The third component counts invocations of the wrapped action. -/
def run {V : Type} (opts : UseActionOptions) (outcome : Outcome V)
    (st : ActionState) : RunResult V × ActionState × Nat :=
  if opts.disabled then
    (.nullRet, st, 0)
  else
    let st1 := preActionState st
    match outcome with
    | .resolves v =>
        (.value v, { st1 with pending := false }, 1)
    | .throwsNonError s =>
        (.thrownTypeError ("Action threw a non-Error object: " ++ s),
         { st1 with pending := false }, 1)
    | .throwsError e =>
        let st2 := { st1 with pending := false }
        match opts.parseError with
        | none =>
            let st3 := { st2 with error := some (.str e.message) }
            if opts.throw = some true then
              (.thrownError e, st3, 1)
            else
              (.nullRet, st3, 1)
        | some pe =>
            let parsed := pe e
            let st3 := { st2 with error := some parsed }
            if opts.throw = some true then
              match parsed with
              | .err e2 => (.thrownError e2, st3, 1)
              | .str s => (.thrownError { message := s }, st3, 1)
            else
              (.nullRet, st3, 1)

/-- The initial state of a fresh `useAction` instance:
`pending = ref(false)`, `error = ref(null)`. -/
def initialState : ActionState :=
  { pending := false, error := none }

/-! ### `useSearch` -/

/-- The options of `useSearch` that matter for the derived `result`:
current values of the `caseSensitive` and `strict` refs (both default
`false`), and the `trim` option, `Option Bool` because the source reads
it with the truthiness test `options?.trim` (an unset field is falsy). -/
structure SearchOptions where
  caseSensitive : Bool
  strict : Bool
  trim : Option Bool
deriving DecidableEq, Repr

/-- JavaScript `s.toLowerCase()`, character by character (defined over
the character list so the kernel can evaluate it on literals). -/
def jsToLower (s : String) : String :=
  String.mk (s.data.map Char.toLower)

/-- JavaScript `s.trim()`: drop leading and trailing whitespace (defined
over the character list so the kernel can evaluate it on literals). -/
def jsTrim (s : String) : String :=
  String.mk
    (((s.data.dropWhile Char.isWhitespace).reverse.dropWhile
        Char.isWhitespace).reverse)

/-- `maybeTrim` from `useSearch`: `options?.trim ? s.trim() : s`. -/
def maybeTrim (opts : SearchOptions) (s : String) : String :=
  if opts.trim = some true then jsTrim s else s

/-- `modifiedInput` from `useSearch`:
`maybeTrim(strict || caseSensitive ? input : input.toLowerCase())`. -/
def modifiedInput (opts : SearchOptions) (input : String) : String :=
  maybeTrim opts
    (if opts.strict || opts.caseSensitive then input else jsToLower input)

/-- Boolean substring containment on character lists:
`listIncludes l sub` holds when `sub` occurs contiguously in `l`. -/
def listIncludes (l sub : List Char) : Bool :=
  (List.range (l.length + 1)).any fun i => (l.drop i).take sub.length == sub

/-- JavaScript's `haystack.includes(needle)`: substring containment. -/
def jsIncludes (haystack needle : String) : Bool :=
  listIncludes haystack.data needle.data

/-- The predicate applied to one extracted term inside `result`:
`strict ? term === modifiedInput
        : maybeTrim(term.toLowerCase()).includes(modifiedInput)`. -/
def termMatches (opts : SearchOptions) (minput term : String) : Bool :=
  if opts.strict then term == minput
  else jsIncludes (maybeTrim opts (jsToLower term)) minput

/-- The `result` computed value of `useSearch`: when `modifiedInput` is
truthy (non-empty), the items whose terms (`termsMap` caches
`getTerms item` per index of the same list, so the `?? false` fallback
for a missing index never fires) satisfy `some(termMatches)`; otherwise
the list itself. -/
def searchResult {T : Type} (opts : SearchOptions) (getTerms : T → List String)
    (list : List T) (input : String) : List T :=
  let minput := modifiedInput opts input
  if minput.data.isEmpty then list
  else list.filter fun item => (getTerms item).any (termMatches opts minput)

end VueUI

namespace VueUI

/-! ## Claim theorems -/

/-- C1: for every action that resolves to a value `v` and every call made
while `disabled` is false, `run` returns `v`, and after settlement the
`error` observable (the spec's `lastError`) is `null`: it is reset to
`null` before the action is invoked and never set on the success path. -/
theorem run_success_returns_value_and_clears_error (V : Type) (v : V)
    (opts : UseActionOptions) (st : ActionState)
    (hd : opts.disabled = false) :
    (run opts (Outcome.resolves v) st).1 = RunResult.value v ∧
      (run opts (Outcome.resolves v) st).2.1.error = none := by
  simp [run, preActionState, hd]

/-- Witness for C1 at a concrete action resolving to `3`. -/
theorem run_success_returns_value_and_clears_error_witness :
    ({ throw := none, disabled := false, parseError := none }
        : UseActionOptions).disabled = false ∧
      ((run { throw := none, disabled := false, parseError := none }
          (Outcome.resolves (3 : Nat)) initialState).1 = RunResult.value 3 ∧
        (run { throw := none, disabled := false, parseError := none }
          (Outcome.resolves (3 : Nat)) initialState).2.1.error = none) :=
  ⟨rfl, run_success_returns_value_and_clears_error Nat 3
    { throw := none, disabled := false, parseError := none }
    initialState rfl⟩

/-- C2: for every action that throws an `Error` `e`, when the `throw`
option is not `true` (false or unset) and `disabled` is false, `run`
returns `null`, and after settlement `error` equals `parseError e` when
a `parseError` function is configured, and `e`'s message otherwise. -/
theorem run_error_no_throw_returns_null_and_sets_error (V : Type)
    (opts : UseActionOptions) (e : Err) (st : ActionState)
    (hd : opts.disabled = false) (ht : opts.throw ≠ some true) :
    (run (V := V) opts (Outcome.throwsError e) st).1 = RunResult.nullRet ∧
      (run (V := V) opts (Outcome.throwsError e) st).2.1.error =
        some (opts.parseError.elim (ErrVal.str e.message) fun pe => pe e) := by
  cases hp : opts.parseError <;>
    simp [run, preActionState, hd, hp, ht]

/-- Witness for C2 at a concrete action throwing `Error("foo")` with a
configured `parseError`. -/
theorem run_error_no_throw_returns_null_and_sets_error_witness :
    ({ throw := some false, disabled := false,
        parseError := some fun err => ErrVal.str (err.message ++ " bar") }
        : UseActionOptions).disabled = false ∧
      ({ throw := some false, disabled := false,
          parseError := some fun err => ErrVal.str (err.message ++ " bar") }
          : UseActionOptions).throw ≠ some true ∧
      ((run (V := Nat)
          { throw := some false, disabled := false,
            parseError := some fun err => ErrVal.str (err.message ++ " bar") }
          (Outcome.throwsError ⟨"foo"⟩) initialState).1 = RunResult.nullRet ∧
        (run (V := Nat)
          { throw := some false, disabled := false,
            parseError := some fun err => ErrVal.str (err.message ++ " bar") }
          (Outcome.throwsError ⟨"foo"⟩) initialState).2.1.error =
            some (ErrVal.str "foo bar")) := by
  refine ⟨rfl, by simp, ?_⟩
  have h := run_error_no_throw_returns_null_and_sets_error Nat
    { throw := some false, disabled := false,
      parseError := some fun err => ErrVal.str (err.message ++ " bar") }
    ⟨"foo"⟩ initialState rfl (by simp)
  simpa using h

/-- C3: for every call made while `disabled` is true, `run` returns
`null` immediately, the wrapped action is never invoked (the invocation
counter is `0`), and the state — in particular `error` — is unchanged. -/
theorem run_disabled_returns_null_without_invoking (V : Type)
    (opts : UseActionOptions) (outcome : Outcome V) (st : ActionState)
    (hd : opts.disabled = true) :
    run opts outcome st = (RunResult.nullRet, st, 0) := by
  simp [run, hd]

/-- Witness for C3 at a concrete disabled call with a previously set
error value. -/
theorem run_disabled_returns_null_without_invoking_witness :
    ({ throw := none, disabled := true, parseError := none }
        : UseActionOptions).disabled = true ∧
      run { throw := none, disabled := true, parseError := none }
        (Outcome.resolves (7 : Nat))
        { pending := false, error := some (ErrVal.str "old") } =
        (RunResult.nullRet,
          { pending := false, error := some (ErrVal.str "old") }, 0) :=
  ⟨rfl, run_disabled_returns_null_without_invoking Nat
    { throw := none, disabled := true, parseError := none }
    (Outcome.resolves 7)
    { pending := false, error := some (ErrVal.str "old") } rfl⟩

/-- C4: for a single (non-overlapping) call with `disabled` false:
`pending` is false before the first call (the initial state), the state
in flight — after `error` is reset to `null` and `pending` set true,
right before the action is awaited — has `pending` true and `error`
`null`, and on settlement `pending` is false again whatever the
outcome. -/
theorem run_pending_lifecycle (V : Type) (opts : UseActionOptions)
    (outcome : Outcome V) (st : ActionState)
    (hd : opts.disabled = false) (hp : st.pending = false) :
    initialState.pending = false ∧
      (preActionState st).pending = true ∧
      (preActionState st).error = none ∧
      (run opts outcome st).2.1.pending = false := by
  refine ⟨rfl, rfl, rfl, ?_⟩
  cases outcome with
  | resolves v => simp [run, preActionState, hd]
  | throwsNonError s => simp [run, preActionState, hd]
  | throwsError e =>
    cases hpe : opts.parseError with
    | none =>
      by_cases ht : opts.throw = some true <;>
        simp [run, preActionState, hd, hpe, ht]
    | some pe =>
      by_cases ht : opts.throw = some true <;>
        cases hv : pe e <;>
          simp [run, preActionState, hd, hpe, ht, hv]

/-- Witness for C4 at a concrete successful call from the initial
state. -/
theorem run_pending_lifecycle_witness :
    ({ throw := none, disabled := false, parseError := none }
        : UseActionOptions).disabled = false ∧
      initialState.pending = false ∧
      (initialState.pending = false ∧
        (preActionState initialState).pending = true ∧
        (preActionState initialState).error = none ∧
        (run { throw := none, disabled := false, parseError := none }
          (Outcome.resolves (1 : Nat)) initialState).2.1.pending = false) :=
  ⟨rfl, rfl, run_pending_lifecycle Nat
    { throw := none, disabled := false, parseError := none }
    (Outcome.resolves 1) initialState rfl rfl⟩

/-- C7: for every action that throws an `Error` `e`, when `throw` is
true and `disabled` is false, `run` rejects with the parsed error — the
value `parseError e` itself when it is an `Error`, otherwise a new
`Error` wrapping its string form, and the original `e` when no
`parseError` is configured — and after settlement (so before the throw
reaches the caller) `error` holds `parseError e` or `e`'s message. -/
theorem run_error_throw_propagates_parsed_error (V : Type)
    (opts : UseActionOptions) (e : Err) (st : ActionState)
    (hd : opts.disabled = false) (ht : opts.throw = some true) :
    (run (V := V) opts (Outcome.throwsError e) st).1 =
      (match opts.parseError with
        | none => RunResult.thrownError e
        | some pe =>
          match pe e with
          | ErrVal.err e2 => RunResult.thrownError e2
          | ErrVal.str s => RunResult.thrownError { message := s }) ∧
      (run (V := V) opts (Outcome.throwsError e) st).2.1.error =
        some (opts.parseError.elim (ErrVal.str e.message) fun pe => pe e) := by
  cases hpe : opts.parseError with
  | none => simp [run, preActionState, hd, ht, hpe]
  | some pe =>
    cases hv : pe e <;> simp [run, preActionState, hd, ht, hpe, hv]

/-- Witness for C7 at a concrete action throwing `Error("foo")` with a
`parseError` returning a plain string: `run` rejects with a fresh
`Error` wrapping that string. -/
theorem run_error_throw_propagates_parsed_error_witness :
    ({ throw := some true, disabled := false,
        parseError := some fun err => ErrVal.str (err.message ++ " bar") }
        : UseActionOptions).disabled = false ∧
      ({ throw := some true, disabled := false,
          parseError := some fun err => ErrVal.str (err.message ++ " bar") }
          : UseActionOptions).throw = some true ∧
      ((run (V := Nat)
          { throw := some true, disabled := false,
            parseError := some fun err => ErrVal.str (err.message ++ " bar") }
          (Outcome.throwsError ⟨"foo"⟩) initialState).1 =
            RunResult.thrownError { message := "foo bar" } ∧
        (run (V := Nat)
          { throw := some true, disabled := false,
            parseError := some fun err => ErrVal.str (err.message ++ " bar") }
          (Outcome.throwsError ⟨"foo"⟩) initialState).2.1.error =
            some (ErrVal.str "foo bar")) := by
  refine ⟨rfl, rfl, ?_⟩
  have h := run_error_throw_propagates_parsed_error Nat
    { throw := some true, disabled := false,
      parseError := some fun err => ErrVal.str (err.message ++ " bar") }
    ⟨"foo"⟩ initialState rfl rfl
  simpa using h

/-- C8: for every action that throws a value that is not an `Error`
instance (recorded by its string form `s`) and every call with
`disabled` false, `run` rejects with a `TypeError` whose message
mentions the thrown value, rather than resolving (with the value or
`null`) or coercing the value into `error` — `error` stays `null`. -/
theorem run_non_error_throw_raises_type_error (V : Type)
    (opts : UseActionOptions) (s : String) (st : ActionState)
    (hd : opts.disabled = false) :
    (run (V := V) opts (Outcome.throwsNonError s) st).1 =
      RunResult.thrownTypeError ("Action threw a non-Error object: " ++ s) ∧
      (run (V := V) opts (Outcome.throwsNonError s) st).2.1.error = none := by
  simp [run, preActionState, hd]

/-- Witness for C8 at a concrete action throwing the non-`Error` value
`42`. -/
theorem run_non_error_throw_raises_type_error_witness :
    ({ throw := none, disabled := false, parseError := none }
        : UseActionOptions).disabled = false ∧
      ((run (V := Nat) { throw := none, disabled := false, parseError := none }
          (Outcome.throwsNonError "42") initialState).1 =
            RunResult.thrownTypeError "Action threw a non-Error object: 42" ∧
        (run (V := Nat) { throw := none, disabled := false, parseError := none }
          (Outcome.throwsNonError "42") initialState).2.1.error = none) :=
  ⟨rfl, run_non_error_throw_raises_type_error Nat
    { throw := none, disabled := false, parseError := none }
    "42" initialState rfl⟩

/-- C10 (implicit): when the wrapped action throws a non-`Error` value,
`run` rejects with its `TypeError` even when the `throw` option is not
true, `error` is `null` after settlement (reset at the start of the call
and never set on this branch), and `pending` is back to false. -/
theorem run_non_error_throw_ignores_throw_option (V : Type)
    (opts : UseActionOptions) (s : String) (st : ActionState)
    (hd : opts.disabled = false) (ht : opts.throw ≠ some true) :
    (run (V := V) opts (Outcome.throwsNonError s) st).1 =
      RunResult.thrownTypeError ("Action threw a non-Error object: " ++ s) ∧
      (run (V := V) opts (Outcome.throwsNonError s) st).2.1.error = none ∧
      (run (V := V) opts (Outcome.throwsNonError s) st).2.1.pending = false := by
  simp [run, preActionState, hd]

/-- Witness for C10 at a concrete action throwing the non-`Error`
string value `"oops"` with the `throw` option unset. -/
theorem run_non_error_throw_ignores_throw_option_witness :
    ({ throw := none, disabled := false, parseError := none }
        : UseActionOptions).disabled = false ∧
      ({ throw := none, disabled := false, parseError := none }
          : UseActionOptions).throw ≠ some true ∧
      ((run (V := Nat) { throw := none, disabled := false, parseError := none }
          (Outcome.throwsNonError "oops") initialState).1 =
            RunResult.thrownTypeError "Action threw a non-Error object: oops" ∧
        (run (V := Nat) { throw := none, disabled := false, parseError := none }
          (Outcome.throwsNonError "oops") initialState).2.1.error = none ∧
        (run (V := Nat) { throw := none, disabled := false, parseError := none }
          (Outcome.throwsNonError "oops") initialState).2.1.pending = false) :=
  ⟨rfl, by simp, run_non_error_throw_ignores_throw_option Nat
    { throw := none, disabled := false, parseError := none }
    "oops" initialState rfl (by simp)⟩

/-- C9: for every list and options, when the query is empty after
normalization (`modifiedInput` is the empty string), `result` is the
full input list itself; hence setting the query and then clearing it to
`""` restores `result` to the original unfiltered list. -/
theorem searchResult_empty_query_returns_list (T : Type)
    (opts : SearchOptions) (getTerms : T → List String) (list : List T)
    (input : String) (h : modifiedInput opts input = "") :
    searchResult opts getTerms list input = list := by
  simp [searchResult, h]

/-- Witness for C9: a whitespace-only query under `trim: true` is empty
after normalization and returns the full list. -/
theorem searchResult_empty_query_returns_list_witness :
    modifiedInput { caseSensitive := false, strict := false, trim := some true }
        "  " = "" ∧
      searchResult { caseSensitive := false, strict := false, trim := some true }
        (fun n : Nat => [toString n]) [1, 2, 3] "  " = [1, 2, 3] :=
  ⟨by decide, searchResult_empty_query_returns_list Nat
    { caseSensitive := false, strict := false, trim := some true }
    (fun n : Nat => [toString n]) [1, 2, 3] "  " (by decide)⟩

/-- C5 (code bug): the `trim` option's doc comment says `@default true`,
but the implementation reads it with the truthiness test
`options?.trim ? s.trim() : s`, so an unspecified `trim` performs no
trimming: with `trim` unset, the query `" bob "` does not match the term
`"bob"` (the result is empty), while with `trim: true` it does. -/
theorem searchResult_unset_trim_does_not_trim :
    searchResult { caseSensitive := false, strict := false, trim := none }
        (fun s => [s]) ["bob"] " bob " = ([] : List String) ∧
      searchResult { caseSensitive := false, strict := false, trim := some true }
        (fun s => [s]) ["bob"] " bob " = ["bob"] := by
  decide

/-- C6 counterexample: with `caseSensitive: true` and `strict: false`,
the query `"Bob"` against the single term `"Bob"` yields zero records,
contradicting the claim that it returns the match. -/
theorem searchResult_case_sensitive_query_Bob_misses :
    searchResult { caseSensitive := true, strict := false, trim := none }
        (fun s => [s]) ["Bob"] "Bob" = ([] : List String) ∧
      "Bob" ∉ searchResult { caseSensitive := true, strict := false, trim := none }
        (fun s => [s]) ["Bob"] "Bob" := by
  decide

/-- C6 (amended): with `caseSensitive: true` and `strict: false`, the
non-strict branch lowercases each term but leaves the query untouched,
so against the term `"Bob"` both `"BOB"` and `"Bob"` yield zero records
and only the all-lowercase query `"bob"` yields the record. -/
theorem searchResult_case_sensitive_lowercases_terms_only :
    searchResult { caseSensitive := true, strict := false, trim := none }
        (fun s => [s]) ["Bob"] "BOB" = ([] : List String) ∧
      searchResult { caseSensitive := true, strict := false, trim := none }
        (fun s => [s]) ["Bob"] "Bob" = ([] : List String) ∧
      searchResult { caseSensitive := true, strict := false, trim := none }
        (fun s => [s]) ["Bob"] "bob" = ["Bob"] := by
  decide

end VueUI
